import Mathlib

/-!
Verification development for the AFIW-ZulfiQode analysis pipeline.

Shallow embedding of the scoring and reconciliation code:
* `app/agents/risk_analyzer.py` (`RiskAnalyzer.compute_ratios`,
  `RiskAnalyzer.compute_risk_score`),
* `app/agents/verifier.py` (`VerifierAgent.validate` and its helpers
  `_compute_cii`, `_compute_tit`, `_classify_*`, `_estimate_*`),
* `app/agents/management_analyzer.py` (`_merge_json`),
* `app/agents/judge.py` (`JudgeAgent.finalize` and its helpers).

Python machine floats are modelled by exact rationals (scores, ratios,
weights) and by real numbers where a square root genuinely occurs
(`np.std`, `math.sqrt`).  Python's `round(x, n)` is modelled as round
half-up at `n` decimals; it differs from float banker's rounding only at
exact decimal ties, which none of the verified inputs hit.
-/

namespace AFIW

/-! ### Rounding helpers (model of Python `round(x, n)`) -/

def round1Q (x : ℚ) : ℚ := (round (x * 10) : ℤ) / 10

def round2Q (x : ℚ) : ℚ := (round (x * 100) : ℤ) / 100

def round3Q (x : ℚ) : ℚ := (round (x * 1000) : ℤ) / 1000

/-- Rounding a real to 3 decimals, producing the exact rational result.
Used for `round(np.std(...), 3)`. -/
noncomputable def roundTo3 (x : ℝ) : ℚ := (round (x * 1000) : ℤ) / 1000

/-! ### RiskAnalyzer (`app/agents/risk_analyzer.py`) -/

/-- Weight constant `self.alpha` (credit risk weight). -/
def alpha : ℚ := 0.4

/-- Weight constant `self.beta` (liquidity risk weight). -/
def beta : ℚ := 0.35

/-- Weight constant `self.gamma` (volatility weight). -/
def gamma : ℚ := 0.25

/-- The financial-figures dictionary consumed by `compute_ratios`;
`Option` models presence or absence of each key. -/
structure Figures where
  total_debt : Option ℚ
  total_equity : Option ℚ
  current_assets : Option ℚ
  current_liabilities : Option ℚ
  stock_prices : Option (List ℚ)

/-- The ratios dictionary; the middle field models the key
`"current_ratio"` (name adjusted for Lean). -/
structure Ratios where
  debt_equity : ℚ
  currentRatio_ : ℚ
  volatility : ℚ
  deriving DecidableEq

/-- Population variance, as used by `np.std` (which is the square root of
this quantity). -/
def pop_variance (l : List ℚ) : ℚ :=
  ((l.map (fun x => (x - l.sum / l.length) ^ 2)).sum) / l.length

/-- `np.std(l)`: population standard deviation. -/
noncomputable def np_std (l : List ℚ) : ℝ := Real.sqrt (pop_variance l)

/-- `prices[-30:]` (the last at most 30 entries). -/
def last30 (l : List ℚ) : List ℚ := l.drop (l.length - 30)

/-- `RiskAnalyzer.compute_ratios`.  `data.get(key, default)` only applies
the default when the key is absent; a present value of `0` for equity or
liabilities reaches the division and raises `ZeroDivisionError` in Python,
modelled here with `Except.error`. -/
noncomputable def compute_ratios (data : Figures) : Except String Ratios :=
  let debt := data.total_debt.getD 0
  let equity := data.total_equity.getD 1
  let assets := data.current_assets.getD 1
  let liabilities := data.current_liabilities.getD 1
  let prices := data.stock_prices.getD []
  if equity = 0 then Except.error "ZeroDivisionError: division by zero"
  else if liabilities = 0 then Except.error "ZeroDivisionError: division by zero"
  else Except.ok
    { debt_equity := round2Q (debt / equity)
      currentRatio_ := round2Q (assets / liabilities)
      volatility := roundTo3 (if 1 < prices.length then np_std (last30 prices) else 0) }

/-- The result dictionary of `compute_risk_score`; the second field models
the key `"liquidity_ratio"`. -/
structure RiskResult where
  credit_risk : ℚ
  liquidityRatio_ : ℚ
  volatility : ℚ
  ethical_bias : ℚ
  risk_score : ℚ
  category : String
  deriving DecidableEq

/-- `RiskAnalyzer.compute_risk_score`. -/
def compute_risk_score (ratios : Ratios) (ethical_bias : ℚ) : RiskResult :=
  let risk_index :=
    alpha * ratios.debt_equity - beta * ratios.currentRatio_
      + gamma * ratios.volatility + ethical_bias * 0.1
  let risk_score := min (max (round3Q risk_index) 0) 1
  let label :=
    if 0.7 < risk_score then "⚠️ High Risk"
    else if 0.4 < risk_score then "🟡 Moderate Risk"
    else "🟢 Low Risk"
  { credit_risk := ratios.debt_equity
    liquidityRatio_ := ratios.currentRatio_
    volatility := ratios.volatility
    ethical_bias := ethical_bias
    risk_score := risk_score
    category := label }

/-! ### VerifierAgent (`app/agents/verifier.py`) -/

/-- Python `str.lower()` (ASCII suffices for the keyword sets used),
written charwise so that it evaluates by reduction. -/
def toLowerStr (s : String) : String := ⟨s.data.map Char.toLower⟩

/-- Prefix test on character lists (helper for the substring test). -/
def hasPref : List Char → List Char → Bool
  | [], _ => true
  | _ :: _, [] => false
  | a :: as, b :: bs => a == b && hasPref as bs

/-- Occurrence of `pat` anywhere in `s` (helper for the substring test). -/
def subOf (pat : List Char) : List Char → Bool
  | [] => hasPref pat []
  | c :: rest => hasPref pat (c :: rest) || subOf pat rest

/-- Python `pat in s` substring test. -/
def containsStr (s pat : String) : Bool := subOf pat.data s.data

def negative_words : List String :=
  ["loss", "deficit", "impairment", "liability", "uncertain"]

def positive_words : List String :=
  ["growth", "profit", "increase", "expansion", "stability"]

/-- `VerifierAgent._detect_tone`. -/
def detect_tone (text : String) : String :=
  let lower := toLowerStr text
  if negative_words.any (fun k => containsStr lower k) then "negative"
  else if positive_words.any (fun k => containsStr lower k) then "positive"
  else "neutral"

/-- `VerifierAgent._estimate_ethics_score`. -/
def estimate_ethics_score (text : String) : ℚ :=
  let t := toLowerStr text
  let score : ℚ := 85
  let score :=
    if containsStr t "qualified opinion" || containsStr t "investigation" then score - 25
    else score
  let score :=
    if containsStr t "adverse audit" || containsStr t "restatement" then score - 35
    else score
  max 40 (min score 95)

/-- One item of the `news_rss` list (only title and summary are read). -/
structure News where
  title : String
  summary : String

/-- The per-item adverse-news test in `_estimate_risk_score`. -/
def adverse (n : News) : Bool :=
  containsStr (toLowerStr n.title) "default" || containsStr (toLowerStr n.summary) "loss"

/-- `VerifierAgent._estimate_risk_score`: the loop adds 15 per adverse
item, then the result is capped at 90. -/
def estimate_risk_score (news : List News) : ℚ :=
  let risk : ℚ := 50 + 15 * ((news.filter adverse).length : ℚ)
  if 90 < risk then 90 else risk

/-- `VerifierAgent._classify_ethics`. -/
def classify_ethics (val : ℚ) : String :=
  if 80 ≤ val then "ethical" else if 60 ≤ val then "questionable" else "unethical"

/-- `VerifierAgent._classify_risk`. -/
def classify_risk (val : ℚ) : String :=
  if val ≤ 40 then "low" else if val ≤ 70 then "moderate" else "high"

/-- `VerifierAgent._classify_cii`. -/
def classify_cii (val : ℚ) : String :=
  if 80 ≤ val then "High"
  else if 60 ≤ val then "Moderate"
  else if 40 ≤ val then "Low"
  else "Critical"

/-- `VerifierAgent._interpret_cii`. -/
def interpret_cii (val : ℚ) : String :=
  if 80 ≤ val then "Company demonstrates strong ethical-financial integrity."
  else if 60 ≤ val then "Company maintains reasonable governance balance with some risk."
  else if 40 ≤ val then "Company integrity under strain, governance issues visible."
  else "Severe governance or ethical distress detected."

/-- `VerifierAgent._compute_cii`. -/
def compute_cii (ethics risk technical cycle : ℚ) : ℚ :=
  round2Q (0.35 * ethics + 0.25 * (100 - risk) + 0.20 * technical + 0.20 * cycle)

/-- `self.previous_cii`, set in `VerifierAgent.__init__`. -/
def previous_cii : ℚ := 68

/-- `VerifierAgent._compute_tit`: value, class, trend direction. -/
def compute_tit (current_cii : ℚ) : ℚ × String × String :=
  let tit := current_cii - previous_cii
  if 2 < tit then (tit, "Improving", "up")
  else if tit < -2 then (tit, "Declining", "down")
  else (tit, "Stable", "flat")

/-- The hardcoded dictionary returned by `_build_cycle_context`. -/
structure CycleContext where
  current_phase : String
  phase_confidence : String
  cycle_confidence_score : ℚ
  cycle_alignment_score : ℚ
  cycle_alignment_class : String
  interpretation : String

def build_cycle_context : CycleContext :=
  { current_phase := "bullish"
    phase_confidence := "high"
    cycle_confidence_score := 85
    cycle_alignment_score := 78
    cycle_alignment_class := "Strongly-Cyclical"
    interpretation := "Company appears aligned with Pakistan\x27s bullish macro phase (2024–34)." }

/-- The `technical_analysis` sub-record; only `technical_confidence` is
read (`tech.get("technical_confidence", 0)`). -/
structure TechAnalysis where
  technical_confidence : Option ℚ
  deriving DecidableEq

/-- The raw extracted record consumed by `validate`; `Option` models
key absence, matching the `raw_data.get(key, default)` reads. -/
structure RawData where
  company_name : Option String
  text_content : Option String
  technical_analysis : Option TechAnalysis
  news_rss : Option (List News)
  operational_metrics : Option (List (String × ℚ))

/-- The `composite_integrity_index` block of the verified record. -/
structure CIIBlock where
  cii_score : ℚ
  cii_class : String
  calculation_basis : String
  interpretation : String

/-- The `temporal_integrity_trend` block of the verified record. -/
structure TITBlock where
  cii_previous : ℚ
  cii_current : ℚ
  tit_value : ℚ
  tit_class : String
  trend_direction : String
  observation_period : String
  interpretation : String

/-- The verified record built by `VerifierAgent.validate`. -/
structure VerifiedRecord where
  company_name : String
  tone : String
  tone_confidence : ℚ
  ethical_flag : String
  ethical_confidence : ℚ
  risk_level : String
  risk_confidence : ℚ
  source_authenticity : String
  authenticity_confidence : ℚ
  summary : String
  technical_analysis : TechAnalysis
  business_cycle_context : CycleContext
  operational_metrics : List (String × ℚ)
  composite_integrity_index : CIIBlock
  temporal_integrity_trend : TITBlock

/-- The technical score read in `validate`:
`raw_data.get("technical_analysis", {}).get("technical_confidence", 0)`. -/
def technical_score (raw : RawData) : ℚ :=
  ((raw.technical_analysis.getD ⟨none⟩).technical_confidence).getD 0

/-- `VerifierAgent.validate`.  The cycle context is the hardcoded
`_build_cycle_context` dictionary, so the cycle-alignment read
`cycle.get("cycle_alignment_score", 50)` always yields 78. -/
def validate (raw : RawData) : VerifiedRecord :=
  let text := raw.text_content.getD ""
  let tech := raw.technical_analysis.getD ⟨none⟩
  let cycle := build_cycle_context
  let ethics_score := estimate_ethics_score text
  let risk_score := estimate_risk_score (raw.news_rss.getD [])
  let tech_score := tech.technical_confidence.getD 0
  let cii := compute_cii ethics_score risk_score tech_score cycle.cycle_alignment_score
  let t := compute_tit cii
  { company_name := raw.company_name.getD "Unknown"
    tone := detect_tone text
    tone_confidence := 80
    ethical_flag := classify_ethics ethics_score
    ethical_confidence := ethics_score
    risk_level := classify_risk risk_score
    risk_confidence := risk_score
    source_authenticity := "authentic"
    authenticity_confidence := 90
    summary := "Report shows " ++ classify_ethics ethics_score ++ " governance and "
      ++ classify_risk risk_score ++ " risk profile."
    technical_analysis := tech
    business_cycle_context := cycle
    operational_metrics := raw.operational_metrics.getD []
    composite_integrity_index :=
      { cii_score := cii
        cii_class := classify_cii cii
        calculation_basis := "0.35×Ethics + 0.25×(100−Risk) + 0.20×Technical + 0.20×CycleAlign"
        interpretation := interpret_cii cii }
    temporal_integrity_trend :=
      { cii_previous := previous_cii
        cii_current := cii
        tit_value := t.1
        tit_class := t.2.1
        trend_direction := t.2.2
        observation_period := "Q2–Q3 2025"
        interpretation := "Integrity trend is " ++ toLowerStr t.2.1 ++ " quarter-to-quarter." } }

/-! ### Association-list records

Python dictionaries whose key sets are open-ended (`_merge_json`,
`JudgeAgent.finalize`) are modelled as association lists where the first
occurrence of a key is its binding; a later `dict` assignment is modelled
by prepending, which yields the same lookup function. -/

/-- Lookup of the binding of `k` (first occurrence wins). -/
def lookupA {α : Type} (k : String) : List (String × α) → Option α
  | [] => none
  | (k', v) :: r => if k' = k then some v else lookupA k r

/-! ### ReconciliationMerger (`_merge_json` in `app/agents/management_analyzer.py`) -/

/-- JSON-ish values as they occur in the merged Lawyer-AI records. -/
inductive ValM where
  | num (q : ℚ)
  | str (s : String)
  | obj (l : List (String × ValM))

/-- A Lawyer-AI record: an association list of fields. -/
abbrev RecM := List (String × ValM)

/-- The whitelist of averaged confidence fields in `_merge_json`. -/
def confidence_fields : List String :=
  ["tone_confidence", "ethical_confidence", "risk_confidence", "authenticity_confidence"]

/-- The nested dictionaries that `_merge_json` shallow-merges. -/
def nested_keys : List String :=
  ["composite_integrity_index", "temporal_integrity_trend", "operational_metrics",
   "future_performance_perspective", "hallucination_metrics"]

/-- One iteration of the confidence-averaging loop: when both sources hold
a number under `k`, assign the rounded mean (`a` from secondary, `b` from
primary, as in the source). -/
def confStep (p s : RecM) (out : RecM) (k : String) : RecM :=
  match lookupA k s, lookupA k p with
  | some (ValM.num a), some (ValM.num b) => (k, ValM.num (round1Q ((a + b) / 2))) :: out
  | _, _ => out

/-- One iteration of the nested-dictionary loop: when both sources hold a
dictionary under `k`, assign the shallow union with primary winning
(`{**secondary[key], **primary[key]}`). -/
def nestedStep (p s : RecM) (out : RecM) (k : String) : RecM :=
  match lookupA k p, lookupA k s with
  | some (ValM.obj po), some (ValM.obj so) => (k, ValM.obj (po ++ so)) :: out
  | _, _ => out

/-- The post-merge weighting for `technical_analysis` and
`management_analysis`: primary's value if present, else secondary's. -/
def takeEither (p s : RecM) (out : RecM) (k : String) : RecM :=
  match lookupA k p with
  | some v => (k, v) :: out
  | none =>
    match lookupA k s with
    | some v => (k, v) :: out
    | none => out

/-- `_merge_json(primary, secondary)`.  The base
`out = dict(secondary); out.update(primary or {})` is `p ++ s` under
first-occurrence lookup semantics; subsequent assignments prepend. -/
def mergeJson (p s : RecM) : RecM :=
  if s.isEmpty then p
  else
    let out := p ++ s
    let out := confidence_fields.foldl (confStep p s) out
    let out := nested_keys.foldl (nestedStep p s) out
    let out := takeEither p s out "technical_analysis"
    takeEither p s out "management_analysis"

/-! ### JudgeAgent (`app/agents/judge.py`) -/

/-- Values of the finalized record.  `ciStr m w` models the formatted
confidence-interval string `f"{m:.2f} ± {w:.2f} (95%)"`: only its
dependence on mean and width is modelled, not the decimal rendering. -/
inductive ValJ where
  | num (x : ℝ)
  | str (s : String)
  | obj (l : List (String × ValJ))
  | arr (l : List String)
  | ciStr (mean width : ℝ)

/-- A record at the Judge stage. -/
abbrev RecJ := List (String × ValJ)

/-- `record.get(k, d)` for an expected numeric field. -/
def getNumJ (r : RecJ) (k : String) (d : ℝ) : ℝ :=
  match lookupA k r with
  | some (ValJ.num x) => x
  | _ => d

/-- `record.get(k1, {}).get(k2, d)` for a numeric field of a nested
dictionary. -/
def getNestedNum (r : RecJ) (k1 k2 : String) (d : ℝ) : ℝ :=
  match lookupA k1 r with
  | some (ValJ.obj o) => getNumJ o k2 d
  | _ => d

/-- `JudgeAgent._simulate_accuracy` for one run; `base` is the draw from
`random.uniform(0.80, 0.95)`, injected as a parameter (the spec calls for
an injectable random source). -/
noncomputable def simulate_accuracy (verified : RecJ) (base : ℝ) : ℝ :=
  let risk_penalty := (100 - getNumJ verified "risk_confidence" 50) / 500
  let ethics_bonus := getNumJ verified "ethical_confidence" 70 / 500
  min 1 (base + ethics_bonus - risk_penalty)

/-- `statistics.mean`. -/
noncomputable def listMean (l : List ℝ) : ℝ := l.sum / l.length

/-- `JudgeAgent._compute_bias_variance`: bias against the 0.9 anchor and
`pstdev(scores) ** 2` (0 when fewer than 2 scores). -/
noncomputable def bias_variance (scores : List ℝ) : ℝ × ℝ :=
  let m := listMean scores
  (|m - 0.9|,
   if 1 < scores.length then
     Real.sqrt (((scores.map (fun x => (x - m) ^ 2)).sum) / scores.length) ^ 2
   else 0)

/-- `JudgeAgent._compute_confidence_interval`: mean and 95% half-width. -/
noncomputable def conf_interval (scores : List ℝ) : ℝ × ℝ :=
  if scores.length = 0 then (0, 0)
  else
    let p := listMean scores
    (p, 1.96 * Real.sqrt (p * (1 - p) / scores.length))

/-- `JudgeAgent._compute_hs`:
`HS = max(0, min(100 - (|bias|*100 + sqrt(var)*50 + ci_width*100), 100))`. -/
noncomputable def compute_hs (bias var ci_width : ℝ) : ℝ :=
  max 0 (min (100 - (|bias| * 100 + Real.sqrt var * 50 + ci_width * 100)) 100)

/-- `JudgeAgent._interpret_hs`. -/
noncomputable def interpret_hs (hs : ℝ) : String :=
  if 80 ≤ hs then "Low bias and variance; outputs are consistently factual."
  else if 60 ≤ hs then "Minor factual drift; mostly stable grounding."
  else if 40 ≤ hs then "Moderate hallucination risk; cross-verify data."
  else "High hallucination and uncertainty detected."

/-- Rounding a real to 3 decimals (Python `round(x, 3)` on Judge values). -/
noncomputable def round3J (x : ℝ) : ℝ := (round (x * 1000) : ℤ) / 1000

/-- Rounding a real to 2 decimals. -/
noncomputable def round2J (x : ℝ) : ℝ := (round (x * 100) : ℤ) / 100

/-- `JudgeAgent._compute_fpp`: the `future_performance_perspective`
value. -/
noncomputable def fpp_value (verified : RecJ) : ValJ :=
  let cii := getNestedNum verified "composite_integrity_index" "cii_score" 60
  let tit := getNestedNum verified "temporal_integrity_trend" "tit_value" 0
  let cycle := getNestedNum verified "business_cycle_context" "cycle_alignment_score" 50
  let weighted := 0.5 * cii + 0.3 * tit + 0.2 * cycle
  let otr : String × String × ℕ :=
    if 75 ≤ weighted then ("improving", "low", 90)
    else if 55 ≤ weighted then ("stable", "moderate", 75)
    else ("declining", "high", 60)
  ValJ.obj
    [("outlook", ValJ.str otr.1),
     ("drivers", ValJ.arr ["revenue recovery", "debt reduction", "regulatory support"]),
     ("forward_risk_level", ValJ.str otr.2.1),
     ("confidence", ValJ.num otr.2.2),
     ("interpretation", ValJ.str ("Outlook is " ++ otr.1 ++ " with " ++ otr.2.1
        ++ " forward risk and confidence of " ++ toString otr.2.2 ++ "%."))]

/-- The `hallucination_metrics` dictionary assembled in `finalize`,
from the five simulated runs. -/
noncomputable def hm_value (verified : RecJ) (bases : List ℝ) : ValJ :=
  let scores := bases.map (simulate_accuracy verified)
  let bv := bias_variance scores
  let ci := conf_interval scores
  let hs := compute_hs bv.1 bv.2 ci.2
  ValJ.obj
    [("bias", ValJ.num (round3J bv.1)),
     ("variance", ValJ.num (round3J bv.2)),
     ("confidence_interval", ValJ.ciStr ci.1 ci.2),
     ("distribution_shape", ValJ.str (if bv.2 < 0.02 then "near-normal" else "skewed")),
     ("hallucination_score", ValJ.num (round2J hs)),
     ("interpretation", ValJ.str (interpret_hs hs))]

/-- `JudgeAgent.finalize`.  `bases` are the five `random.uniform(0.80,
0.95)` draws and `feedback_summary` is the external
`HumanFeedbackHandler.aggregate_feedback` result, both injected as
parameters.  The Python dict literal `{**verified, three new keys}` gives
the three new keys precedence, modelled by prepending them. -/
noncomputable def finalize (verified : RecJ) (bases : List ℝ) (feedback_summary : ValJ) : RecJ :=
  ("future_performance_perspective", fpp_value verified) ::
  ("hallucination_metrics", hm_value verified bases) ::
  ("human_feedback", feedback_summary) :: verified

/-! ### Helper lemmas about record lookups -/

lemma lookupA_cons_self {α : Type} (k : String) (v : α) (r : List (String × α)) :
    lookupA k ((k, v) :: r) = some v := by
  simp [lookupA]

lemma lookupA_cons_ne {α : Type} {k k' : String} (v : α) (r : List (String × α))
    (h : k' ≠ k) : lookupA k ((k', v) :: r) = lookupA k r := by
  simp [lookupA, h]

lemma lookupA_append_of_none {α : Type} {k : String} {l₁ : List (String × α)}
    (h : lookupA k l₁ = none) (l₂ : List (String × α)) :
    lookupA k (l₁ ++ l₂) = lookupA k l₂ := by
  induction l₁ with
  | nil => rfl
  | cons hd tl ih =>
    obtain ⟨k', v⟩ := hd
    rw [lookupA] at h
    rw [List.cons_append, lookupA]
    by_cases hk : k' = k
    · rw [if_pos hk] at h; exact absurd h (by simp)
    · rw [if_neg hk] at h; rw [if_neg hk]; exact ih h

lemma lookupA_append_of_some {α : Type} {k : String} {l₁ : List (String × α)} {v : α}
    (h : lookupA k l₁ = some v) (l₂ : List (String × α)) :
    lookupA k (l₁ ++ l₂) = some v := by
  induction l₁ with
  | nil => exact absurd h (by simp [lookupA])
  | cons hd tl ih =>
    obtain ⟨k', v⟩ := hd
    rw [lookupA] at h
    rw [List.cons_append, lookupA]
    by_cases hk : k' = k
    · rw [if_pos hk] at h; rw [if_pos hk]; exact h
    · rw [if_neg hk] at h; rw [if_neg hk]; exact ih h

/-! ### Lookup behaviour of the `_merge_json` stages -/

/-- A confidence-averaging step for a different key does not change the
binding of `k`. -/
lemma confStep_lookup_ne {p s out : RecM} {k k' : String} (h : k' ≠ k) :
    lookupA k (confStep p s out k') = lookupA k out := by
  rw [confStep]
  split
  · exact lookupA_cons_ne _ _ h
  · rfl

/-- A confidence-averaging step cannot touch `k` when primary's value at
`k` is not a number (in particular when it is absent). -/
lemma confStep_lookup_not_num {p s out : RecM} {k k' : String}
    (hp : ∀ q : ℚ, lookupA k p ≠ some (ValM.num q)) :
    lookupA k (confStep p s out k') = lookupA k out := by
  rw [confStep]
  split
  · rename_i a b hs' hp'
    by_cases hkk : k' = k
    · subst hkk; exact absurd hp' (hp b)
    · exact lookupA_cons_ne _ _ hkk
  · rfl

/-- A confidence-averaging step at `k` itself, when both sources hold
numbers, binds `k` to the rounded mean. -/
lemma confStep_lookup_hit {p s out : RecM} {k : String} {a b : ℚ}
    (hs : lookupA k s = some (ValM.num a)) (hp : lookupA k p = some (ValM.num b)) :
    lookupA k (confStep p s out k) = some (ValM.num (round1Q ((a + b) / 2))) := by
  rw [confStep, hs, hp]
  exact lookupA_cons_self _ _ _

/-- A nested-merge step for a different key does not change the binding
of `k`. -/
lemma nestedStep_lookup_ne {p s out : RecM} {k k' : String} (h : k' ≠ k) :
    lookupA k (nestedStep p s out k') = lookupA k out := by
  rw [nestedStep]
  split
  · exact lookupA_cons_ne _ _ h
  · rfl

/-- A nested-merge step cannot touch `k` when primary's value at `k` is
not a dictionary (in particular when it is absent). -/
lemma nestedStep_lookup_not_obj {p s out : RecM} {k k' : String}
    (hp : ∀ l : List (String × ValM), lookupA k p ≠ some (ValM.obj l)) :
    lookupA k (nestedStep p s out k') = lookupA k out := by
  rw [nestedStep]
  split
  · rename_i po so hp' hs'
    by_cases hkk : k' = k
    · subst hkk; exact absurd hp' (hp po)
    · exact lookupA_cons_ne _ _ hkk
  · rfl

/-- A `takeEither` step for a different key does not change the binding
of `k`. -/
lemma takeEither_lookup_ne {p s out : RecM} {k k' : String} (h : k' ≠ k) :
    lookupA k (takeEither p s out k') = lookupA k out := by
  rw [takeEither]
  split
  · exact lookupA_cons_ne _ _ h
  · split
    · exact lookupA_cons_ne _ _ h
    · rfl

/-- A `takeEither` step at `k` itself takes primary's value when
present. -/
lemma takeEither_lookup_psome {p s out : RecM} {k : String} {v : ValM}
    (hp : lookupA k p = some v) :
    lookupA k (takeEither p s out k) = some v := by
  rw [takeEither, hp]
  exact lookupA_cons_self _ _ _

/-- A `takeEither` step at `k` itself falls back to secondary's value
when primary lacks the key. -/
lemma takeEither_lookup_pnone {p s out : RecM} {k : String} {v : ValM}
    (hp : lookupA k p = none) (hs : lookupA k s = some v) :
    lookupA k (takeEither p s out k) = some v := by
  rw [takeEither, hp, hs]
  exact lookupA_cons_self _ _ _

/-- Unfolding of the fold over the four confidence fields. -/
lemma foldl_conf (p s : RecM) (out : RecM) :
    confidence_fields.foldl (confStep p s) out
      = confStep p s (confStep p s (confStep p s (confStep p s out
          "tone_confidence") "ethical_confidence") "risk_confidence")
          "authenticity_confidence" := rfl

/-- Unfolding of the fold over the five nested dictionary keys. -/
lemma foldl_nested (p s : RecM) (out : RecM) :
    nested_keys.foldl (nestedStep p s) out
      = nestedStep p s (nestedStep p s (nestedStep p s (nestedStep p s (nestedStep p s out
          "composite_integrity_index") "temporal_integrity_trend") "operational_metrics")
          "future_performance_perspective") "hallucination_metrics" := rfl

/-- A record whose lookup at `k` succeeds is nonempty. -/
lemma isEmpty_false_of_lookup {α : Type} {k : String} {l : List (String × α)} {v : α}
    (h : lookupA k l = some v) : l.isEmpty = false := by
  cases l with
  | nil => exact absurd h (by simp [lookupA])
  | cons hd tl => rfl

/-- Bindings of `k` pass through both folds untouched when primary's
value at `k` is neither a number nor a dictionary (in particular when the
key is absent from primary or holds a string). -/
lemma folds_lookup_frame {p s : RecM} {k : String} (out : RecM)
    (hnum : ∀ q : ℚ, lookupA k p ≠ some (ValM.num q))
    (hobj : ∀ l : List (String × ValM), lookupA k p ≠ some (ValM.obj l)) :
    lookupA k (nested_keys.foldl (nestedStep p s)
      (confidence_fields.foldl (confStep p s) out)) = lookupA k out := by
  rw [foldl_conf, foldl_nested]
  rw [nestedStep_lookup_not_obj hobj, nestedStep_lookup_not_obj hobj,
    nestedStep_lookup_not_obj hobj, nestedStep_lookup_not_obj hobj,
    nestedStep_lookup_not_obj hobj, confStep_lookup_not_num hnum,
    confStep_lookup_not_num hnum, confStep_lookup_not_num hnum,
    confStep_lookup_not_num hnum]

/-- `_merge_json` keeps secondary's binding for every field absent from
primary. -/
lemma mergeJson_lookup_only_secondary {p s : RecM} {k : String} {v : ValM}
    (hp : lookupA k p = none) (hs : lookupA k s = some v) :
    lookupA k (mergeJson p s) = some v := by
  have hse : s.isEmpty = false := isEmpty_false_of_lookup hs
  have hnum : ∀ q : ℚ, lookupA k p ≠ some (ValM.num q) := by
    intro q hq; rw [hp] at hq; simp at hq
  have hobj : ∀ l : List (String × ValM), lookupA k p ≠ some (ValM.obj l) := by
    intro l hq; rw [hp] at hq; simp at hq
  simp only [mergeJson, hse, Bool.false_eq_true, if_false]
  have hbase : lookupA k (p ++ s) = some v := by
    rw [lookupA_append_of_none hp]; exact hs
  by_cases hm : "management_analysis" = k
  · subst hm; exact takeEither_lookup_pnone hp hs
  · rw [takeEither_lookup_ne hm]
    by_cases ht : "technical_analysis" = k
    · subst ht; exact takeEither_lookup_pnone hp hs
    · rw [takeEither_lookup_ne ht]
      rw [folds_lookup_frame _ hnum hobj]
      exact hbase

/-- `_merge_json` binds every whitelisted confidence field that both
sources hold as numbers to the mean rounded to 1 decimal. -/
lemma mergeJson_lookup_conf_avg {p s : RecM} {k : String} {a b : ℚ}
    (hk : k ∈ confidence_fields)
    (hs : lookupA k s = some (ValM.num a)) (hp : lookupA k p = some (ValM.num b)) :
    lookupA k (mergeJson p s) = some (ValM.num (round1Q ((a + b) / 2))) := by
  have hse : s.isEmpty = false := isEmpty_false_of_lookup hs
  simp only [mergeJson, hse, Bool.false_eq_true, if_false]
  simp only [confidence_fields, List.mem_cons, List.not_mem_nil, or_false] at hk
  rcases hk with rfl | rfl | rfl | rfl <;>
    rw [takeEither_lookup_ne (by decide), takeEither_lookup_ne (by decide), foldl_nested,
      nestedStep_lookup_ne (by decide), nestedStep_lookup_ne (by decide),
      nestedStep_lookup_ne (by decide), nestedStep_lookup_ne (by decide),
      nestedStep_lookup_ne (by decide), foldl_conf]
  · rw [confStep_lookup_ne (by decide), confStep_lookup_ne (by decide),
      confStep_lookup_ne (by decide)]
    exact confStep_lookup_hit hs hp
  · rw [confStep_lookup_ne (by decide), confStep_lookup_ne (by decide)]
    exact confStep_lookup_hit hs hp
  · rw [confStep_lookup_ne (by decide)]
    exact confStep_lookup_hit hs hp
  · exact confStep_lookup_hit hs hp

/-! ### Helper lemmas -/

/-- Rounding to 2 decimals moves a rational by at most 1/200. -/
lemma round2Q_bounds (x : ℚ) : x - 1/200 ≤ round2Q x ∧ round2Q x ≤ x + 1/200 := by
  have h := abs_sub_round (x * 100)
  rw [abs_le] at h
  rw [round2Q]
  constructor
  · linarith [h.1]
  · linarith [h.2]

/-- The ethics heuristic always lands in the clamp interval [40, 95]. -/
lemma estimate_ethics_score_bounds (t : String) :
    40 ≤ estimate_ethics_score t ∧ estimate_ethics_score t ≤ 95 := by
  simp only [estimate_ethics_score]
  exact ⟨le_max_left _ _, max_le (by norm_num) (min_le_right _ _)⟩

/-- The qualitative risk heuristic always lands in [50, 90]. -/
lemma estimate_risk_score_bounds (news : List News) :
    50 ≤ estimate_risk_score news ∧ estimate_risk_score news ≤ 90 := by
  simp only [estimate_risk_score]
  have hn : (0:ℚ) ≤ ((news.filter adverse).length : ℚ) := by positivity
  split_ifs with h
  · exact ⟨by norm_num, le_refl 90⟩
  · exact ⟨by linarith, by linarith [not_lt.mp h]⟩

/-- Bounds on the CII under the score ranges `validate` actually produces
(ethics in [40,95], risk in [50,90], cycle = 78) plus a bounded technical
score. -/
lemma compute_cii_bounds {e r t : ℚ}
    (he1 : 40 ≤ e) (he2 : e ≤ 95) (hr1 : 50 ≤ r) (hr2 : r ≤ 90)
    (ht1 : 0 ≤ t) (ht2 : t ≤ 100) :
    0 ≤ compute_cii e r t 78 ∧ compute_cii e r t 78 ≤ 100 := by
  rw [compute_cii]
  have h := round2Q_bounds (0.35 * e + 0.25 * (100 - r) + 0.20 * t + 0.20 * 78)
  constructor
  · nlinarith [h.1]
  · nlinarith [h.2]

/-! ### Claim C1 -/

/-- Claim C1: the Verifier's Composite Integrity Index is
`0.35*Ethics + 0.25*(100-Risk) + 0.20*Technical + 0.20*CycleAlign`
rounded to 2 decimals, and for ethics 85, risk 50, technical 80, cycle 78
it equals 73.85 with CII class "Moderate". -/
theorem C1_cii_formula :
    (∀ e r t c : ℚ,
      compute_cii e r t c = round2Q (0.35 * e + 0.25 * (100 - r) + 0.20 * t + 0.20 * c))
    ∧ compute_cii 85 50 80 78 = 73.85
    ∧ classify_cii (compute_cii 85 50 80 78) = "Moderate" := by
  have h85 : compute_cii 85 50 80 78 = 73.85 := by
    rw [compute_cii, round2Q, round_eq]; norm_num
  refine ⟨fun e r t c => rfl, h85, ?_⟩
  rw [h85, classify_cii]
  norm_num

/-! ### Claim C2 -/

/-- Claim C2 counterexample: at the boundaries the strict comparisons in
`compute_risk_score` put risk_index = 0.4 in the low category (the claim
says moderate) and risk_index = 0.7 in the moderate category (the claim
says high). -/
theorem C2_boundary_counterexample :
    (compute_risk_score ⟨1, 0, 0⟩ 0).risk_score = 0.4
    ∧ (compute_risk_score ⟨1, 0, 0⟩ 0).category = "🟢 Low Risk"
    ∧ "🟢 Low Risk" ≠ "🟡 Moderate Risk"
    ∧ (compute_risk_score ⟨7/4, 0, 0⟩ 0).risk_score = 0.7
    ∧ (compute_risk_score ⟨7/4, 0, 0⟩ 0).category = "🟡 Moderate Risk"
    ∧ "🟡 Moderate Risk" ≠ "⚠️ High Risk" := by
  refine ⟨?_, ?_, by decide, ?_, ?_, by decide⟩ <;>
    · simp only [compute_risk_score, round3Q, alpha, beta, gamma, round_eq]
      norm_num

/-- Claim C2 (amended): risk_score always lies in [0,1]; the category
follows the strict thresholds, so risk_index = 0.4 yields the low
category and risk_index = 0.7 yields the moderate category. -/
theorem C2_risk_score_amended :
    (∀ r : Ratios, ∀ b : ℚ,
      0 ≤ (compute_risk_score r b).risk_score ∧ (compute_risk_score r b).risk_score ≤ 1)
    ∧ (∀ r : Ratios, ∀ b : ℚ,
        ((compute_risk_score r b).category = "⚠️ High Risk"
          ↔ 0.7 < (compute_risk_score r b).risk_score)
        ∧ ((compute_risk_score r b).category = "🟡 Moderate Risk"
          ↔ 0.4 < (compute_risk_score r b).risk_score
              ∧ (compute_risk_score r b).risk_score ≤ 0.7)
        ∧ ((compute_risk_score r b).category = "🟢 Low Risk"
          ↔ (compute_risk_score r b).risk_score ≤ 0.4))
    ∧ (compute_risk_score ⟨1, 0, 0⟩ 0).risk_score = 0.4
    ∧ (compute_risk_score ⟨1, 0, 0⟩ 0).category = "🟢 Low Risk"
    ∧ (compute_risk_score ⟨7/4, 0, 0⟩ 0).risk_score = 0.7
    ∧ (compute_risk_score ⟨7/4, 0, 0⟩ 0).category = "🟡 Moderate Risk" := by
  refine ⟨fun r b => ?_, fun r b => ?_, C2_boundary_counterexample.1,
    C2_boundary_counterexample.2.1, C2_boundary_counterexample.2.2.2.1,
    C2_boundary_counterexample.2.2.2.2.1⟩
  · simp only [compute_risk_score]
    constructor
    · exact le_min (le_max_right _ _) (by norm_num)
    · exact min_le_right _ _
  · simp only [compute_risk_score]
    split_ifs with h1 h2
    · refine ⟨by simp [h1], ?_, ?_⟩
      · constructor
        · intro hs; exact absurd hs (by decide)
        · rintro ⟨-, hle⟩; exact absurd (lt_of_lt_of_le h1 hle) (by norm_num)
      · constructor
        · intro hs; exact absurd hs (by decide)
        · intro hle; exact absurd (lt_of_lt_of_le h1 hle) (by norm_num)
    · refine ⟨?_, by simp [h2, not_lt.mp h1], ?_⟩
      · constructor
        · intro hs; exact absurd hs (by decide)
        · intro hgt; exact absurd hgt h1
      · constructor
        · intro hs; exact absurd hs (by decide)
        · intro hle; exact absurd (lt_of_lt_of_le h2 hle) (by norm_num)
    · refine ⟨?_, ?_, by simp [not_lt.mp h2]⟩
      · constructor
        · intro hs; exact absurd hs (by decide)
        · intro hgt; exact absurd hgt h1
      · constructor
        · intro hs; exact absurd hs (by decide)
        · rintro ⟨hgt, -⟩; exact absurd hgt h2

/-- Claim C2 witness: the amended theorem instantiated at the concrete
boundary ratios. -/
theorem C2_risk_score_amended_witness :
    (0 ≤ (compute_risk_score ⟨1, 0, 0⟩ 0).risk_score
      ∧ (compute_risk_score ⟨1, 0, 0⟩ 0).risk_score ≤ 1)
    ∧ ((compute_risk_score ⟨1, 0, 0⟩ 0).category = "🟢 Low Risk"
        ↔ (compute_risk_score ⟨1, 0, 0⟩ 0).risk_score ≤ 0.4) :=
  ⟨C2_risk_score_amended.1 ⟨1, 0, 0⟩ 0, (C2_risk_score_amended.2.1 ⟨1, 0, 0⟩ 0).2.2⟩

/-! ### Claim C3 -/

/-- Claim C3 (the code contradicts it): when the equity or liabilities key
is present with value 0, `compute_ratios` divides by zero instead of
defaulting the denominator to 1 — the `data.get(key, 1)` default only
fires for an absent key. -/
theorem C3_zero_denominator_raises :
    compute_ratios ⟨some 500, some 0, some 800, some 600, some [95, 98]⟩
      = Except.error "ZeroDivisionError: division by zero"
    ∧ compute_ratios ⟨some 500, some 1000, some 800, some 0, some [95, 98]⟩
      = Except.error "ZeroDivisionError: division by zero" := by
  constructor <;> (rw [compute_ratios]; norm_num)

/-! ### Claim C4 -/

/-- The price series of end-to-end scenario A. -/
def pricesA : List ℚ := [95, 98, 100, 102, 105, 104, 107, 106]

/-- The figures dictionary of end-to-end scenario A. -/
def figA : Figures := ⟨some 500, some 1000, some 800, some 600, some pricesA⟩

/-- The ratios `compute_ratios` actually produces on scenario A. -/
def ratiosA : Ratios := ⟨1/2, 133/100, 3919/1000⟩

/-- On scenario A, the volatility of the raw price levels rounds to
3.919: the population variance is 983/64 and
3.9185² ≤ 983/64 < 3.9195². -/
lemma volatility_pricesA : roundTo3 (np_std pricesA) = 3919/1000 := by
  have hv : pop_variance pricesA = 983/64 := by
    rw [pricesA, pop_variance]; norm_num [List.sum_cons]
  have hs : np_std pricesA = Real.sqrt ((983:ℝ)/64) := by
    rw [np_std, hv]; norm_num
  have h1 : (3.9185:ℝ) ≤ Real.sqrt ((983:ℝ)/64) := by
    rw [show (3.9185:ℝ) = Real.sqrt (3.9185^2) from (Real.sqrt_sq (by norm_num)).symm]
    apply Real.sqrt_le_sqrt; norm_num
  have h2 : Real.sqrt ((983:ℝ)/64) < 3.9195 := by
    rw [show (3.9195:ℝ) = Real.sqrt (3.9195^2) from (Real.sqrt_sq (by norm_num)).symm]
    exact Real.sqrt_lt_sqrt (by norm_num) (by norm_num)
  have hfl : ⌊Real.sqrt ((983:ℝ)/64) * 1000 + 1/2⌋ = (3919:ℤ) := by
    apply Int.floor_eq_iff.mpr
    constructor
    · push_cast; nlinarith
    · push_cast; nlinarith
  rw [roundTo3, hs, round_eq, hfl]
  norm_num

/-- Claim C4 (the code contradicts its stated volatility semantics): on
scenario A the ratios are debt_equity = 0.5 and current ratio = 1.33 as
claimed, but `np.std` is applied to the raw price levels (not the price
changes announced in the code comment), giving volatility 3.919, so
`compute_risk_score` returns risk_score 0.724 and "⚠️ High Risk", not the
claimed "🟢 Low Risk" with risk_score < 0.4. -/
theorem C4_scenA_eval :
    compute_ratios figA = Except.ok ratiosA
    ∧ ratiosA.debt_equity = 0.5
    ∧ ratiosA.currentRatio_ = 1.33
    ∧ ratiosA.volatility = 3.919
    ∧ (compute_risk_score ratiosA 0.1).risk_score = 0.724
    ∧ (compute_risk_score ratiosA 0.1).category = "⚠️ High Risk"
    ∧ ¬ (compute_risk_score ratiosA 0.1).risk_score < 0.4
    ∧ "⚠️ High Risk" ≠ "🟢 Low Risk" := by
  have hrs : (compute_risk_score ratiosA 0.1).risk_score = 0.724 := by
    simp only [compute_risk_score, ratiosA, round3Q, alpha, beta, gamma, round_eq]
    norm_num
  refine ⟨?_, by norm_num [ratiosA], by norm_num [ratiosA], by norm_num [ratiosA],
    hrs, ?_, by rw [hrs]; norm_num, by decide⟩
  · rw [compute_ratios]
    have hlast : last30 pricesA = pricesA := by rw [last30, pricesA]; rfl
    have hlen : (1:ℕ) < pricesA.length := by rw [pricesA]; norm_num
    simp only [figA, Option.getD_some]
    rw [if_neg (by norm_num), if_neg (by norm_num), if_pos hlen, hlast, volatility_pricesA]
    simp only [ratiosA, Except.ok.injEq, Ratios.mk.injEq]
    refine ⟨?_, ?_, trivial⟩ <;> (rw [round2Q, round_eq]; norm_num [Int.floor_eq_iff])
  · simp only [compute_risk_score, ratiosA, round3Q, alpha, beta, gamma, round_eq]
    norm_num

/-! ### Claim C5 -/

/-- Claim C5: TIT = CII_current − CII_previous with previous CII 68; for
every current CII the result is classified Improving with direction up
when TIT > 2, Declining with direction down when TIT < −2, and otherwise
Stable with direction flat; in particular TIT = 2.01 is Improving/up,
TIT = 2.0 and TIT = −2.0 are Stable/flat (the boundaries are exclusive on
the stable side), TIT = −2.01 is Declining/down, and current 73.85
against previous 68 gives TIT = 5.85, Improving, up. -/
theorem C5_tit :
    (∀ cur : ℚ, (compute_tit cur).1 = cur - previous_cii)
    ∧ previous_cii = 68
    ∧ (∀ cur : ℚ, 2 < cur - previous_cii →
        compute_tit cur = (cur - previous_cii, "Improving", "up"))
    ∧ (∀ cur : ℚ, cur - previous_cii < -2 →
        compute_tit cur = (cur - previous_cii, "Declining", "down"))
    ∧ (∀ cur : ℚ, -2 ≤ cur - previous_cii → cur - previous_cii ≤ 2 →
        compute_tit cur = (cur - previous_cii, "Stable", "flat"))
    ∧ compute_tit (previous_cii + 2.01) = (2.01, "Improving", "up")
    ∧ compute_tit (previous_cii + 2) = (2, "Stable", "flat")
    ∧ compute_tit (previous_cii + (-2)) = (-2, "Stable", "flat")
    ∧ compute_tit (previous_cii + (-2.01)) = (-2.01, "Declining", "down")
    ∧ compute_tit 73.85 = (5.85, "Improving", "up") := by
  refine ⟨fun cur => ?_, rfl, fun cur h => ?_, fun cur h => ?_, fun cur h1 h2 => ?_,
    ?_, ?_, ?_, ?_, ?_⟩
  · rw [compute_tit]
    split_ifs <;> rfl
  · simp only [compute_tit]
    rw [if_pos h]
  · simp only [compute_tit]
    rw [if_neg (by linarith), if_pos h]
  · simp only [compute_tit]
    rw [if_neg (by linarith), if_neg (by linarith)]
  all_goals (rw [compute_tit, previous_cii]; norm_num)

/-- Claim C5 witness: the three universal classification rules
instantiated at current CII 70.01, 65.99 and 70, discharging each
threshold hypothesis concretely. -/
theorem C5_tit_witness :
    (2 < (70.01:ℚ) - previous_cii
      ∧ compute_tit 70.01 = ((70.01:ℚ) - previous_cii, "Improving", "up"))
    ∧ ((65.99:ℚ) - previous_cii < -2
      ∧ compute_tit 65.99 = ((65.99:ℚ) - previous_cii, "Declining", "down"))
    ∧ (-2 ≤ (70:ℚ) - previous_cii ∧ (70:ℚ) - previous_cii ≤ 2
      ∧ compute_tit 70 = ((70:ℚ) - previous_cii, "Stable", "flat")) :=
  have hi : 2 < (70.01:ℚ) - previous_cii := by rw [previous_cii]; norm_num
  have hd : (65.99:ℚ) - previous_cii < -2 := by rw [previous_cii]; norm_num
  have hs1 : -2 ≤ (70:ℚ) - previous_cii := by rw [previous_cii]; norm_num
  have hs2 : (70:ℚ) - previous_cii ≤ 2 := by rw [previous_cii]; norm_num
  ⟨⟨hi, C5_tit.2.2.1 70.01 hi⟩, ⟨hd, C5_tit.2.2.2.1 65.99 hd⟩,
   ⟨hs1, hs2, C5_tit.2.2.2.2.1 70 hs1 hs2⟩⟩

/-! ### Claim C6 -/

/-- Claim C6: for every bias, nonnegative variance, and
confidence-interval half-width, the Judge's Hallucination Score is
`clamp(100 − (100·|bias| + 50·sqrt(variance) + 100·ci_halfwidth), 0, 100)`
and in particular always lies in [0, 100]. -/
theorem C6_hallucination_score (bias var ci_width : ℝ) (_hvar : 0 ≤ var) :
    compute_hs bias var ci_width
      = max 0 (min (100 - (100 * |bias| + 50 * Real.sqrt var + 100 * ci_width)) 100)
    ∧ 0 ≤ compute_hs bias var ci_width
    ∧ compute_hs bias var ci_width ≤ 100 := by
  have harg : |bias| * 100 + Real.sqrt var * 50 + ci_width * 100
      = 100 * |bias| + 50 * Real.sqrt var + 100 * ci_width := by ring
  refine ⟨by rw [compute_hs, harg], ?_, ?_⟩
  · exact le_max_left _ _
  · exact max_le (by norm_num) (min_le_right _ _)

/-- Claim C6 witness: the theorem instantiated at bias 0, variance 0,
half-width 0. -/
theorem C6_hallucination_score_witness :
    (0:ℝ) ≤ 0
    ∧ (compute_hs 0 0 0
        = max 0 (min (100 - (100 * |(0:ℝ)| + 50 * Real.sqrt 0 + 100 * 0)) 100)
      ∧ 0 ≤ compute_hs 0 0 0 ∧ compute_hs 0 0 0 ≤ 100) :=
  ⟨le_refl 0, C6_hallucination_score 0 0 0 (le_refl 0)⟩

/-! ### Claim C7 -/

/-- Scenario D primary record `{"tone_confidence": 80}`. -/
def recD_primary : RecM := [("tone_confidence", ValM.num 80)]

/-- Scenario D secondary record
`{"tone_confidence": 70, "risk_level": "moderate"}`. -/
def recD_secondary : RecM :=
  [("tone_confidence", ValM.num 70), ("risk_level", ValM.str "moderate")]

/-- Claim C7: `merge(primary, secondary)` keeps secondary's value for
every field present only in secondary, averages (rounded to 1 decimal)
each whitelisted confidence field that both sources hold as numbers, and
on scenario D merges `{"tone_confidence": 80}` with
`{"tone_confidence": 70, "risk_level": "moderate"}` into exactly
`{"tone_confidence": 75.0, "risk_level": "moderate"}`. -/
theorem C7_merge_fields :
    (∀ (p s : RecM) (k : String) (v : ValM),
      lookupA k p = none → lookupA k s = some v →
        lookupA k (mergeJson p s) = some v)
    ∧ (∀ (p s : RecM) (k : String) (a b : ℚ), k ∈ confidence_fields →
        lookupA k s = some (ValM.num a) → lookupA k p = some (ValM.num b) →
          lookupA k (mergeJson p s) = some (ValM.num (round1Q ((a + b) / 2))))
    ∧ lookupA "tone_confidence" (mergeJson recD_primary recD_secondary)
        = some (ValM.num 75)
    ∧ lookupA "risk_level" (mergeJson recD_primary recD_secondary)
        = some (ValM.str "moderate")
    ∧ (∀ k : String, k ≠ "tone_confidence" → k ≠ "risk_level" →
        lookupA k (mergeJson recD_primary recD_secondary) = none) := by
  refine ⟨fun p s k v hp hs => mergeJson_lookup_only_secondary hp hs,
    fun p s k a b hk hs hp => mergeJson_lookup_conf_avg hk hs hp, ?_, ?_, ?_⟩
  · rw [mergeJson_lookup_conf_avg (p := recD_primary) (s := recD_secondary)
      (k := "tone_confidence") (a := 70) (b := 80) (by simp [confidence_fields]) rfl rfl]
    norm_num [round1Q, round_eq]
  · exact mergeJson_lookup_only_secondary (p := recD_primary) (s := recD_secondary) rfl rfl
  · intro k h1 h2
    have hconc : mergeJson recD_primary recD_secondary
        = [("tone_confidence", ValM.num (round1Q ((70 + 80) / 2))),
           ("tone_confidence", ValM.num 80), ("tone_confidence", ValM.num 70),
           ("risk_level", ValM.str "moderate")] := rfl
    rw [hconc, lookupA_cons_ne _ _ (Ne.symm h1), lookupA_cons_ne _ _ (Ne.symm h1),
      lookupA_cons_ne _ _ (Ne.symm h1), lookupA_cons_ne _ _ (Ne.symm h2)]
    rfl

/-- Claim C7 witness: the theorem instantiated on the scenario D records,
with each hypothesis discharged concretely. -/
theorem C7_merge_fields_witness :
    lookupA "risk_level" recD_primary = none
    ∧ lookupA "risk_level" recD_secondary = some (ValM.str "moderate")
    ∧ lookupA "risk_level" (mergeJson recD_primary recD_secondary)
        = some (ValM.str "moderate")
    ∧ "tone_confidence" ∈ confidence_fields
    ∧ lookupA "tone_confidence" recD_secondary = some (ValM.num 70)
    ∧ lookupA "tone_confidence" recD_primary = some (ValM.num 80)
    ∧ lookupA "tone_confidence" (mergeJson recD_primary recD_secondary)
        = some (ValM.num (round1Q ((70 + 80) / 2)))
    ∧ lookupA "summary" (mergeJson recD_primary recD_secondary) = none :=
  ⟨rfl, rfl,
   C7_merge_fields.1 recD_primary recD_secondary "risk_level" (ValM.str "moderate") rfl rfl,
   by simp [confidence_fields], rfl, rfl,
   C7_merge_fields.2.1 recD_primary recD_secondary "tone_confidence" 70 80
     (by simp [confidence_fields]) rfl rfl,
   C7_merge_fields.2.2.2.2 "summary" (by simp) (by simp)⟩

/-! ### Claim C8 -/

/-- A primary record carrying the explicit "not available" sentinel. -/
def recNA_primary : RecM := [("tone", ValM.str "not available")]

/-- A secondary record carrying a real value for the same field. -/
def recNA_secondary : RecM := [("tone", ValM.str "positive")]

/-- Claim C8 counterexample: `_merge_json` has no "not available" check —
with primary `{"tone": "not available"}` and secondary
`{"tone": "positive"}` the merged record carries primary's
"not available", not secondary's value as the claim states. -/
theorem C8_not_available_counterexample :
    lookupA "tone" (mergeJson recNA_primary recNA_secondary)
      = some (ValM.str "not available")
    ∧ lookupA "tone" recNA_secondary = some (ValM.str "positive")
    ∧ some (ValM.str "not available") ≠ some (ValM.str "positive") := by
  refine ⟨rfl, rfl, by simp⟩

/-- Claim C8 (amended): a scalar field present in primary overrides
secondary even when primary's value is the string "not available" —
whenever primary holds "not available" at a field that secondary also
holds, the merged record carries primary's "not available". -/
theorem C8_primary_wins_amended (p s : RecM) (k : String) (w : ValM)
    (hp : lookupA k p = some (ValM.str "not available"))
    (hs : lookupA k s = some w) :
    lookupA k (mergeJson p s) = some (ValM.str "not available") := by
  have hse : s.isEmpty = false := isEmpty_false_of_lookup hs
  have hnum : ∀ q : ℚ, lookupA k p ≠ some (ValM.num q) := by
    intro q hq; rw [hp] at hq; simp at hq
  have hobj : ∀ l : List (String × ValM), lookupA k p ≠ some (ValM.obj l) := by
    intro l hq; rw [hp] at hq; simp at hq
  simp only [mergeJson, hse, Bool.false_eq_true, if_false]
  by_cases hm : "management_analysis" = k
  · subst hm; exact takeEither_lookup_psome hp
  · rw [takeEither_lookup_ne hm]
    by_cases ht : "technical_analysis" = k
    · subst ht; exact takeEither_lookup_psome hp
    · rw [takeEither_lookup_ne ht]
      rw [folds_lookup_frame _ hnum hobj]
      exact lookupA_append_of_some hp s

/-- Claim C8 witness: the amended theorem instantiated on the concrete
"not available" records. -/
theorem C8_primary_wins_amended_witness :
    lookupA "tone" recNA_primary = some (ValM.str "not available")
    ∧ lookupA "tone" recNA_secondary = some (ValM.str "positive")
    ∧ lookupA "tone" (mergeJson recNA_primary recNA_secondary)
        = some (ValM.str "not available") :=
  ⟨rfl, rfl,
   C8_primary_wins_amended recNA_primary recNA_secondary "tone" (ValM.str "positive") rfl rfl⟩

/-! ### Claim C9 -/

/-- Severity order of the ethics labels produced by `_classify_ethics`. -/
def ethicsRank : String → ℕ
  | "ethical" => 2
  | "questionable" => 1
  | _ => 0

/-- Severity order of the risk labels produced by `_classify_risk`. -/
def riskRank : String → ℕ
  | "high" => 2
  | "moderate" => 1
  | _ => 0

/-- Order of the CII classes produced by `_classify_cii`. -/
def ciiRank : String → ℕ
  | "High" => 3
  | "Moderate" => 2
  | "Low" => 1
  | _ => 0

lemma classify_ethics_monotone {x y : ℚ} (h : x ≤ y) :
    ethicsRank (classify_ethics x) ≤ ethicsRank (classify_ethics y) := by
  rw [classify_ethics, classify_ethics]
  split_ifs <;> first | decide | (exfalso; linarith)

lemma classify_risk_monotone {x y : ℚ} (h : x ≤ y) :
    riskRank (classify_risk x) ≤ riskRank (classify_risk y) := by
  rw [classify_risk, classify_risk]
  split_ifs <;> first | decide | (exfalso; linarith)

lemma classify_cii_monotone {x y : ℚ} (h : x ≤ y) :
    ciiRank (classify_cii x) ≤ ciiRank (classify_cii y) := by
  rw [classify_cii, classify_cii]
  split_ifs <;> first | decide | (exfalso; linarith)

/-- A raw record whose upstream `technical_confidence` is the unvalidated
value 1000. -/
def rawX : RawData := ⟨none, none, some ⟨some 1000⟩, none, none⟩

/-- Claim C9 counterexample: `validate` copies the raw
`technical_confidence` into the CII formula without bounds-checking, so a
raw record carrying `technical_confidence = 1000` yields
`cii_score = 257.85`, outside [0,100]. -/
theorem C9_unbounded_cii_counterexample :
    (validate rawX).composite_integrity_index.cii_score = 257.85
    ∧ ¬ ((validate rawX).composite_integrity_index.cii_score ≤ 100) := by
  have hscore : (validate rawX).composite_integrity_index.cii_score
      = compute_cii (estimate_ethics_score "") (estimate_risk_score []) 1000 78 := rfl
  have he : estimate_ethics_score "" = 85 := rfl
  have hr : estimate_risk_score [] = 50 := by rw [estimate_risk_score]; norm_num
  have hval : (validate rawX).composite_integrity_index.cii_score = 257.85 := by
    rw [hscore, he, hr, compute_cii, round2Q, round_eq]; norm_num
  exact ⟨hval, by rw [hval]; norm_num⟩

/-- Claim C9 (amended): provided the raw record's technical confidence
(after the `get` default) lies in [0,100], the verified record satisfies
the schema invariant — every confidence field lies in [0,100], the CII
score lies in [0,100], and the ethics/risk/CII labels are the fixed
monotone threshold classifiers applied to their numeric scores. -/
theorem C9_schema_amended (raw : RawData)
    (h0 : 0 ≤ technical_score raw) (h1 : technical_score raw ≤ 100) :
    ((validate raw).tone_confidence = 80
      ∧ 0 ≤ (validate raw).tone_confidence ∧ (validate raw).tone_confidence ≤ 100)
    ∧ (0 ≤ (validate raw).ethical_confidence ∧ (validate raw).ethical_confidence ≤ 100)
    ∧ (0 ≤ (validate raw).risk_confidence ∧ (validate raw).risk_confidence ≤ 100)
    ∧ ((validate raw).authenticity_confidence = 90
      ∧ 0 ≤ (validate raw).authenticity_confidence
      ∧ (validate raw).authenticity_confidence ≤ 100)
    ∧ (0 ≤ (validate raw).business_cycle_context.cycle_confidence_score
      ∧ (validate raw).business_cycle_context.cycle_confidence_score ≤ 100)
    ∧ (0 ≤ (validate raw).business_cycle_context.cycle_alignment_score
      ∧ (validate raw).business_cycle_context.cycle_alignment_score ≤ 100)
    ∧ (0 ≤ (validate raw).composite_integrity_index.cii_score
      ∧ (validate raw).composite_integrity_index.cii_score ≤ 100)
    ∧ (validate raw).ethical_flag = classify_ethics (validate raw).ethical_confidence
    ∧ (validate raw).risk_level = classify_risk (validate raw).risk_confidence
    ∧ (validate raw).composite_integrity_index.cii_class
        = classify_cii (validate raw).composite_integrity_index.cii_score
    ∧ (∀ x y : ℚ, x ≤ y → ethicsRank (classify_ethics x) ≤ ethicsRank (classify_ethics y))
    ∧ (∀ x y : ℚ, x ≤ y → riskRank (classify_risk x) ≤ riskRank (classify_risk y))
    ∧ (∀ x y : ℚ, x ≤ y → ciiRank (classify_cii x) ≤ ciiRank (classify_cii y)) := by
  have he := estimate_ethics_score_bounds (raw.text_content.getD "")
  have hr := estimate_risk_score_bounds (raw.news_rss.getD [])
  have htone : (validate raw).tone_confidence = 80 := rfl
  have hethic : (validate raw).ethical_confidence
      = estimate_ethics_score (raw.text_content.getD "") := rfl
  have hrisk : (validate raw).risk_confidence
      = estimate_risk_score (raw.news_rss.getD []) := rfl
  have hauth : (validate raw).authenticity_confidence = 90 := rfl
  have hbcc : (validate raw).business_cycle_context = build_cycle_context := rfl
  have hcii : (validate raw).composite_integrity_index.cii_score
      = compute_cii (estimate_ethics_score (raw.text_content.getD ""))
          (estimate_risk_score (raw.news_rss.getD [])) (technical_score raw) 78 := rfl
  have hcb := compute_cii_bounds he.1 he.2 hr.1 hr.2 h0 h1
  refine ⟨⟨htone, by rw [htone]; norm_num, by rw [htone]; norm_num⟩,
    ⟨by rw [hethic]; linarith [he.1], by rw [hethic]; linarith [he.2]⟩,
    ⟨by rw [hrisk]; linarith [hr.1], by rw [hrisk]; linarith [hr.2]⟩,
    ⟨hauth, by rw [hauth]; norm_num, by rw [hauth]; norm_num⟩,
    ⟨by rw [hbcc, build_cycle_context]; norm_num, by rw [hbcc, build_cycle_context]; norm_num⟩,
    ⟨by rw [hbcc, build_cycle_context]; norm_num, by rw [hbcc, build_cycle_context]; norm_num⟩,
    ⟨by rw [hcii]; exact hcb.1, by rw [hcii]; exact hcb.2⟩,
    rfl, rfl, rfl,
    fun x y h => classify_ethics_monotone h,
    fun x y h => classify_risk_monotone h,
    fun x y h => classify_cii_monotone h⟩

/-- A raw record whose technical confidence is the in-range value 80. -/
def rawW : RawData := ⟨none, none, some ⟨some 80⟩, none, none⟩

/-- Claim C9 witness: the amended theorem instantiated on a raw record
with technical confidence 80. -/
theorem C9_schema_amended_witness :
    0 ≤ technical_score rawW ∧ technical_score rawW ≤ 100
    ∧ (0 ≤ (validate rawW).composite_integrity_index.cii_score
      ∧ (validate rawW).composite_integrity_index.cii_score ≤ 100)
    ∧ (validate rawW).ethical_flag = classify_ethics (validate rawW).ethical_confidence :=
  have hw0 : 0 ≤ technical_score rawW := by
    rw [show technical_score rawW = 80 from rfl]; norm_num
  have hw1 : technical_score rawW ≤ 100 := by
    rw [show technical_score rawW = 80 from rfl]; norm_num
  ⟨hw0, hw1, (C9_schema_amended rawW hw0 hw1).2.2.2.2.2.2.1,
    (C9_schema_amended rawW hw0 hw1).2.2.2.2.2.2.2.1⟩

/-! ### Claim C10 -/

/-- Claim C10: `JudgeAgent.finalize` returns a record that keeps every
key of the input verified record with its value unchanged, except the
three keys the Judge itself writes (`future_performance_perspective`,
`hallucination_metrics`, `human_feedback`), which are bound to the
Judge's own computed values and may overwrite input bindings. -/
theorem C10_finalize_frame :
    (∀ (v : RecJ) (bases : List ℝ) (fb : ValJ) (k : String) (val : ValJ),
      lookupA k v = some val →
      k ≠ "future_performance_perspective" →
      k ≠ "hallucination_metrics" →
      k ≠ "human_feedback" →
      lookupA k (finalize v bases fb) = some val)
    ∧ (∀ (v : RecJ) (bases : List ℝ) (fb : ValJ),
        lookupA "future_performance_perspective" (finalize v bases fb)
          = some (fpp_value v)
        ∧ lookupA "hallucination_metrics" (finalize v bases fb)
          = some (hm_value v bases)
        ∧ lookupA "human_feedback" (finalize v bases fb) = some fb) := by
  constructor
  · intro v bases fb k val hk h1 h2 h3
    rw [finalize, lookupA_cons_ne _ _ (Ne.symm h1), lookupA_cons_ne _ _ (Ne.symm h2),
      lookupA_cons_ne _ _ (Ne.symm h3)]
    exact hk
  · intro v bases fb
    refine ⟨?_, ?_, ?_⟩
    · rw [finalize]; exact lookupA_cons_self _ _ _
    · rw [finalize, lookupA_cons_ne _ _ (by decide)]
      exact lookupA_cons_self _ _ _
    · rw [finalize, lookupA_cons_ne _ _ (by decide), lookupA_cons_ne _ _ (by decide)]
      exact lookupA_cons_self _ _ _

/-- A concrete verified record for the C10 witness. -/
def recJW : RecJ := [("company_name", ValJ.str "TestCo")]

/-- Five concrete accuracy-base draws for the C10 witness. -/
noncomputable def basesW : List ℝ := [0.9, 0.9, 0.9, 0.9, 0.9]

/-- Claim C10 witness: the frame theorem instantiated on a one-field
verified record and concrete draws. -/
theorem C10_finalize_frame_witness :
    lookupA "company_name" recJW = some (ValJ.str "TestCo")
    ∧ lookupA "company_name" (finalize recJW basesW (ValJ.str "none"))
        = some (ValJ.str "TestCo")
    ∧ lookupA "human_feedback" (finalize recJW basesW (ValJ.str "none"))
        = some (ValJ.str "none") :=
  ⟨rfl,
   C10_finalize_frame.1 recJW basesW (ValJ.str "none") "company_name" (ValJ.str "TestCo")
     rfl (by decide) (by decide) (by decide),
   (C10_finalize_frame.2 recJW basesW (ValJ.str "none")).2.2⟩

end AFIW
